import Mathlib

set_option linter.unusedVariables false

/-! # Verification of the Grid component of a terminal screen-state engine

A shallow embedding of `src/grid.rs`.  Machine integers (`u16`) are
modelled as `Nat`, with `saturating_add` made explicit as saturation at
65535 and `saturating_sub` as truncated `Nat` subtraction.  Operations
whose Rust source can panic in a debug build (`u16` underflow/overflow,
`Vec::insert` / `Vec::remove` out of bounds, `expect` on a missing
cell) return `Option` and yield `none` exactly at the panicking inputs.

The `Row`/`Cell`/`Attrs` collaborators and the escape-sequence
interpreter live outside the sampled source; where a claim depends on
them they are modelled from the spec, and the serialization functions
are kept parametric in the row-level formatter exactly where `grid.rs`
delegates to `Row`. -/

/-- Background colour of a cell.  The colour model lives in the external
`attrs` collaborator; `grid.rs` only passes it through, so it is
modelled as a unit type. -/
abbrev Color := Unit

/-- Attribute state threaded through the row formatters (external
collaborator, passed through opaquely by `grid.rs`). -/
abbrev Attrs := Unit

/-- A cell holds one displayable character (the attribute part of the
external cell model is not consumed by `grid.rs`). -/
abbrev Cell := Char

/-- Models `Cell::default()`: a blank cell. -/
def blankCell : Cell := ' '

/-- grid.rs `Size`: positive grid dimensions (`u16` fields). -/
structure Size where
  rows : Nat
  cols : Nat
deriving Repr, DecidableEq

/-- grid.rs `Pos`: zero-indexed cursor coordinate (`u16` fields). -/
structure Pos where
  row : Nat
  col : Nat
deriving Repr, DecidableEq

/-- The external `Row` collaborator (the sample contains only
`grid.rs`): an ordered sequence of cells plus a wrapped flag
(spec section 2). -/
structure Row where
  cells : List Cell
  wrapped : Bool
deriving Repr, DecidableEq

/-- Modelled from the spec (section 6): `Row::new` constructs a blank
row of the given width. -/
def Row.new (cols : Nat) : Row :=
  { cells := List.replicate cols blankCell, wrapped := false }

/-- Modelled from the spec (section 6): `Row::clear` clears every cell
to a background colour.  Whether the external implementation also
resets the wrapped flag is unspecified; no claim depends on it, and we
leave the flag untouched. -/
def Row.clear (r : Row) (_bg : Color) : Row :=
  { r with cells := r.cells.map (fun _ => blankCell) }

/-- grid.rs lines 3-13: the `Grid` state. -/
structure Grid where
  size : Size
  pos : Pos
  saved_pos : Pos
  rows : List Row
  scroll_top : Nat
  scroll_bottom : Nat
  origin_mode : Bool
  saved_origin_mode : Bool
deriving Repr, DecidableEq

/-- Largest `u16` value. -/
def u16Max : Nat := 65535

/-- Models `u16::saturating_add`. -/
def satAdd (a b : Nat) : Nat := min (a + b) u16Max

/-- Models `Vec::insert`: panics (`none`) when the index exceeds the length. -/
def insertAt? {α : Type} : Nat → α → List α → Option (List α)
  | 0, a, l => some (a :: l)
  | _ + 1, _, [] => none
  | n + 1, a, x :: l => (insertAt? n a l).map (x :: ·)

/-- Models `Vec::remove`: panics (`none`) when the index is out of bounds. -/
def removeAt? {α : Type} : Nat → List α → Option (List α)
  | _, [] => none
  | 0, _ :: l => some l
  | n + 1, x :: l => (removeAt? n l).map (x :: ·)

/-- Models `Vec::resize(n, a)`. -/
def listResize {α : Type} (n : Nat) (a : α) (l : List α) : List α :=
  l.take n ++ List.replicate (n - l.length) a

/-- Index-aware in-place update, used to model the
`iter_mut().skip(..).take(..)` loops of the source. -/
def mapIdxFrom {α : Type} (f : Nat → α → α) : Nat → List α → List α
  | _, [] => []
  | i, x :: l => f i x :: mapIdxFrom f (i + 1) l

/-- Runs a fallible step `n` times, modelling `for _ in 0..n` loops
whose body can panic. -/
def iterOpt {α : Type} (f : α → Option α) : Nat → α → Option α
  | 0, a => some a
  | n + 1, a => (f a).bind (iterOpt f n)

/-- grid.rs lines 16-27: `Grid::new`.  (`size.rows - 1` is a `u16`
subtraction; a zero-row size, which the spec's data model excludes,
would panic in Rust and is handled by the positivity hypotheses of the
theorems below.) -/
def Grid.new (size : Size) : Grid :=
  { size := size
    pos := ⟨0, 0⟩
    saved_pos := ⟨0, 0⟩
    rows := List.replicate size.rows (Row.new size.cols)
    scroll_top := 0
    scroll_bottom := size.rows - 1
    origin_mode := false
    saved_origin_mode := false }

/-- grid.rs lines 29-31: `Grid::new_row`. -/
def Grid.new_row (g : Grid) : Row := Row.new g.size.cols

/-- grid.rs lines 33-43: `Grid::clear`. -/
def Grid.clear (g : Grid) : Grid :=
  { g with
    pos := ⟨0, 0⟩
    saved_pos := ⟨0, 0⟩
    rows := g.rows.map (fun r => r.clear ())
    scroll_top := 0
    scroll_bottom := g.size.rows - 1
    origin_mode := false
    saved_origin_mode := false }

/-- grid.rs lines 390-398: `Grid::row_clamp_top`.  Clamps the cursor row
up to `scroll_top` (when limited to the scroll region) and returns the
clamped distance. -/
def Grid.row_clamp_top (g : Grid) (limit_to_scroll_region : Bool) : Grid × Nat :=
  if limit_to_scroll_region ∧ g.pos.row < g.scroll_top then
    ({ g with pos := { g.pos with row := g.scroll_top } }, g.scroll_top - g.pos.row)
  else (g, 0)

/-- grid.rs lines 400-413: `Grid::row_clamp_bottom`. -/
def Grid.row_clamp_bottom (g : Grid) (limit_to_scroll_region : Bool) : Grid × Nat :=
  let bottom := if limit_to_scroll_region then g.scroll_bottom else g.size.rows - 1
  if bottom < g.pos.row then
    ({ g with pos := { g.pos with row := bottom } }, g.pos.row - bottom)
  else (g, 0)

/-- grid.rs lines 415-419: `Grid::col_clamp` (`size.cols - 1` assumes the
positive column count of the data model). -/
def Grid.col_clamp (g : Grid) : Grid :=
  if g.size.cols - 1 < g.pos.col then
    { g with pos := { g.pos with col := g.size.cols - 1 } }
  else g

/-- grid.rs lines 49-68: `Grid::set_size`.  Returns `none` for a
zero-row target size: `scroll_bottom >= size.rows` then holds and the
`size.rows - 1` re-clamp underflows in `u16`. -/
def Grid.set_size (g : Grid) (size : Size) : Option Grid :=
  let g :=
    if size.cols ≠ g.size.cols then
      { g with rows := g.rows.map (fun r => { r with wrapped := false }) }
    else g
  let g := { g with size := size }
  if size.rows = 0 then none else
  let g := if size.rows ≤ g.scroll_bottom then { g with scroll_bottom := size.rows - 1 } else g
  let g := if g.scroll_bottom < g.scroll_top then { g with scroll_top := 0 } else g
  let g := (g.row_clamp_top false).1
  let g := (g.row_clamp_bottom false).1
  some g.col_clamp

/-- grid.rs lines 74-82: `Grid::set_pos`. -/
def Grid.set_pos (g : Grid) (pos : Pos) : Grid :=
  let pos := if g.origin_mode then { pos with row := satAdd pos.row g.scroll_top } else pos
  let g := { g with pos := pos }
  let g := (g.row_clamp_top g.origin_mode).1
  let g := (g.row_clamp_bottom g.origin_mode).1
  g.col_clamp

/-- grid.rs lines 84-87: `Grid::save_cursor`. -/
def Grid.save_cursor (g : Grid) : Grid :=
  { g with saved_pos := g.pos, saved_origin_mode := g.origin_mode }

/-- grid.rs lines 89-92: `Grid::restore_cursor`. -/
def Grid.restore_cursor (g : Grid) : Grid :=
  { g with pos := g.saved_pos, origin_mode := g.saved_origin_mode }

/-- grid.rs lines 110-113: `Grid::current_row_mut`, as the combinator
every cursor-row editing operation goes through: `none` models the
`expect("cursor not pointing to a cell")` panic when the cursor row does
not address a row. -/
def Grid.modifyCurrentRow (g : Grid) (f : Row → Option Row) : Option Grid :=
  match g.rows[g.pos.row]? with
  | none => none
  | some r => (f r).map (fun r2 => { g with rows := g.rows.set g.pos.row r2 })

/-- grid.rs lines 200-204: `Grid::erase_all`. -/
def Grid.erase_all (g : Grid) (bg : Color) : Grid :=
  { g with rows := g.rows.map (fun r => r.clear bg) }

/-- grid.rs lines 224-226: `Grid::erase_row`. -/
def Grid.erase_row (g : Grid) (bg : Color) : Option Grid :=
  g.modifyCurrentRow (fun r => some (r.clear bg))

/-- grid.rs lines 228-235: `Grid::erase_row_forward`: clears the wrap
flag, then clears the cells from the cursor column on
(`cells_mut().skip(pos.col)`). -/
def Grid.erase_row_forward (g : Grid) (bg : Color) : Option Grid :=
  g.modifyCurrentRow (fun r =>
    some { cells := mapIdxFrom (fun i c => if g.pos.col ≤ i then blankCell else c) 0 r.cells,
           wrapped := false })

/-- grid.rs lines 237-243: `Grid::erase_row_backward`
(`cells_mut().take(pos.col + 1)`). -/
def Grid.erase_row_backward (g : Grid) (bg : Color) : Option Grid :=
  g.modifyCurrentRow (fun r =>
    some { r with
           cells := mapIdxFrom (fun i c => if i < g.pos.col + 1 then blankCell else c) 0 r.cells })

/-- grid.rs lines 206-213: `Grid::erase_all_forward`: rows strictly
below the cursor are cleared (`rows_mut().skip(pos.row + 1)`), then
`erase_row_forward`. -/
def Grid.erase_all_forward (g : Grid) (bg : Color) : Option Grid :=
  let g := { g with
             rows := mapIdxFrom (fun i r => if g.pos.row + 1 ≤ i then r.clear bg else r) 0 g.rows }
  g.erase_row_forward bg

/-- grid.rs lines 215-222: `Grid::erase_all_backward`
(`rows_mut().take(pos.row)`), then `erase_row_backward`. -/
def Grid.erase_all_backward (g : Grid) (bg : Color) : Option Grid :=
  let g := { g with
             rows := mapIdxFrom (fun i r => if i < g.pos.row then r.clear bg else r) 0 g.rows }
  g.erase_row_backward bg

/-- grid.rs lines 245-253: `Grid::insert_cells`: insert blank cells at
the cursor column `count` times, then truncate the row back to the grid
width. -/
def Grid.insert_cells (g : Grid) (count : Nat) : Option Grid :=
  g.modifyCurrentRow (fun r =>
    (iterOpt (insertAt? g.pos.col blankCell) count r.cells).map
      (fun cs => { r with cells := cs.take g.size.cols }))

/-- grid.rs lines 255-263: `Grid::delete_cells`.  The loop bound is the
`u16` difference `size.cols - pos.col`, so the operation panics (`none`)
when the cursor column lies beyond the grid width; otherwise it removes
`min count (size.cols - pos.col)` cells at the cursor column and resizes
the row back to the grid width with blank cells. -/
def Grid.delete_cells (g : Grid) (count : Nat) : Option Grid :=
  g.modifyCurrentRow (fun r =>
    if g.pos.col ≤ g.size.cols then
      (iterOpt (removeAt? g.pos.col) (min count (g.size.cols - g.pos.col)) r.cells).map
        (fun cs => { r with cells := listResize g.size.cols blankCell cs })
    else none)

/-- grid.rs lines 265-273: `Grid::erase_cells`
(`cells_mut().skip(pos.col).take(count)`). -/
def Grid.erase_cells (g : Grid) (count : Nat) (bg : Color) : Option Grid :=
  g.modifyCurrentRow (fun r =>
    some { r with
           cells := mapIdxFrom
             (fun i c => if g.pos.col ≤ i ∧ i < g.pos.col + count then blankCell else c)
             0 r.cells })

/-- grid.rs lines 275-280: `Grid::insert_lines`: `count` times, remove
the row at `scroll_bottom` and insert a fresh blank row at the cursor
row. -/
def Grid.insert_lines (g : Grid) (count : Nat) : Option Grid :=
  iterOpt
    (fun g2 => do
      let rs ← removeAt? g2.scroll_bottom g2.rows
      let rs ← insertAt? g2.pos.row g2.new_row rs
      pure { g2 with rows := rs })
    count g

/-- grid.rs lines 282-288: `Grid::delete_lines`.  The loop bound
computes `size.rows - pos.row` in `u16` (`none` when the cursor row lies
beyond the grid height). -/
def Grid.delete_lines (g : Grid) (count : Nat) : Option Grid :=
  if g.pos.row ≤ g.size.rows then
    iterOpt
      (fun g2 => do
        let rs ← insertAt? (g2.scroll_bottom + 1) g2.new_row g2.rows
        let rs ← removeAt? g2.pos.row rs
        pure { g2 with rows := rs })
      (min count (g.size.rows - g.pos.row)) g
  else none

/-- grid.rs lines 290-296: `Grid::scroll_up`.  The clamp computes
`size.rows - scroll_top` in `u16`. -/
def Grid.scroll_up (g : Grid) (count : Nat) : Option Grid :=
  if g.scroll_top ≤ g.size.rows then
    iterOpt
      (fun g2 => do
        let rs ← insertAt? (g2.scroll_bottom + 1) g2.new_row g2.rows
        let rs ← removeAt? g2.scroll_top rs
        pure { g2 with rows := rs })
      (min count (g.size.rows - g.scroll_top)) g
  else none

/-- grid.rs lines 298-303: `Grid::scroll_down` (the count is not clamped
by this function). -/
def Grid.scroll_down (g : Grid) (count : Nat) : Option Grid :=
  iterOpt
    (fun g2 => do
      let rs ← removeAt? g2.scroll_bottom g2.rows
      let rs ← insertAt? g2.scroll_top g2.new_row rs
      pure { g2 with rows := rs })
    count g

/-- grid.rs lines 305-316: `Grid::set_scroll_region` (`size().rows - 1`
assumes the positive row count of the data model). -/
def Grid.set_scroll_region (g : Grid) (top bottom : Nat) : Grid :=
  let bottom := min bottom (g.size.rows - 1)
  let g :=
    if top < bottom then { g with scroll_top := top, scroll_bottom := bottom }
    else { g with scroll_top := 0, scroll_bottom := g.size.rows - 1 }
  { g with pos := { row := g.scroll_top, col := 0 } }

/-- grid.rs lines 318-321: `Grid::set_origin_mode`: set the flag, then
re-home the cursor under the new mode. -/
def Grid.set_origin_mode (g : Grid) (mode : Bool) : Grid :=
  Grid.set_pos { g with origin_mode := mode } ⟨0, 0⟩

/-- grid.rs lines 323-326: `Grid::row_inc_clamp`. -/
def Grid.row_inc_clamp (g : Grid) (count : Nat) : Grid :=
  let g := { g with pos := { g.pos with row := satAdd g.pos.row count } }
  (g.row_clamp_bottom true).1

/-- grid.rs lines 328-332: `Grid::row_inc_scroll`: move down, then
convert the clamped overshoot into `scroll_up` lines. -/
def Grid.row_inc_scroll (g : Grid) (count : Nat) : Option Grid :=
  let g := { g with pos := { g.pos with row := satAdd g.pos.row count } }
  let p := g.row_clamp_bottom true
  p.1.scroll_up p.2

/-- grid.rs lines 334-337: `Grid::row_dec_clamp`. -/
def Grid.row_dec_clamp (g : Grid) (count : Nat) : Grid :=
  let g := { g with pos := { g.pos with row := g.pos.row - count } }
  (g.row_clamp_top true).1

/-- grid.rs lines 339-350: `Grid::row_dec_scroll`: the amount absorbed
by `saturating_sub` is computed first and added to the clamp overshoot
before scrolling down. -/
def Grid.row_dec_scroll (g : Grid) (count : Nat) : Option Grid :=
  let extra_lines := if g.pos.row < count then count - g.pos.row else 0
  let g := { g with pos := { g.pos with row := g.pos.row - count } }
  let p := g.row_clamp_top true
  p.1.scroll_down (p.2 + extra_lines)

/-- grid.rs lines 352-356: `Grid::row_set`. -/
def Grid.row_set (g : Grid) (i : Nat) : Grid :=
  let g := { g with pos := { g.pos with row := i } }
  let g := (g.row_clamp_top true).1
  (g.row_clamp_bottom true).1

/-- grid.rs lines 358-360: `Grid::col_inc`: saturating add with no
clamping to the grid width. -/
def Grid.col_inc (g : Grid) (count : Nat) : Grid :=
  { g with pos := { g.pos with col := satAdd g.pos.col count } }

/-- grid.rs lines 362-365: `Grid::col_inc_clamp`. -/
def Grid.col_inc_clamp (g : Grid) (count : Nat) : Grid :=
  Grid.col_clamp { g with pos := { g.pos with col := satAdd g.pos.col count } }

/-- grid.rs lines 367-369: `Grid::col_dec` (saturating sub). -/
def Grid.col_dec (g : Grid) (count : Nat) : Grid :=
  { g with pos := { g.pos with col := g.pos.col - count } }

/-- grid.rs lines 371-375: `Grid::col_tab`.  The `+= 8` is an unchecked
`u16` addition (`none` on overflow). -/
def Grid.col_tab (g : Grid) : Option Grid :=
  let c := g.pos.col - g.pos.col % 8
  if c + 8 ≤ u16Max then
    some (Grid.col_clamp { g with pos := { g.pos with col := c + 8 } })
  else none

/-- grid.rs lines 377-380: `Grid::col_set`. -/
def Grid.col_set (g : Grid) (i : Nat) : Grid :=
  Grid.col_clamp { g with pos := { g.pos with col := i } }

/-- grid.rs lines 382-388: `Grid::col_wrap`.  The guard computes
`size.cols - width` in `u16` (`none` when `width` exceeds the grid
width). -/
def Grid.col_wrap (g : Grid) (width : Nat) : Option Grid :=
  if width ≤ g.size.cols then
    if g.size.cols - width < g.pos.col then do
      let g ← g.modifyCurrentRow (fun r => some { r with wrapped := true })
      let g := { g with pos := { g.pos with col := 0 } }
      g.row_inc_scroll 1
    else some g
  else none

/-! ## Serialization

The wire format of spec section 6 is modelled at the level of the
decoded control units the external byte-stream interpreter dispatches
on: absolute cursor positioning `ESC[r;cH` (1-indexed), attribute reset
`ESC[m`, clear-below `ESC[J`, the two bytes of the CRLF separator, and
single displayable characters. -/

/-- One decoded unit of the wire format (spec section 6). -/
inductive Token where
  | moveTo (row col : Nat)
  | clearBelow
  | reset
  | cr
  | lf
  | ch (c : Char)
deriving Repr, DecidableEq

/-- The per-row loop of grid.rs lines 143-154: accumulate row output and
separators, tracking `final_col` across rows (updated only by rows with
nonempty output), threading the attribute state. -/
def contentsFormattedAux (rowCF : Row → Nat → Attrs → List Token × Attrs × Nat) (cols : Nat) :
    List Row → Attrs → Nat → List Token × Nat
  | [], _, final_col => ([], final_col)
  | r :: rest, prev_attrs, final_col =>
    let t := rowCF r cols prev_attrs
    let final_col := if t.1 = [] then final_col else t.2.2
    let sep := if r.wrapped then [] else [Token.cr, Token.lf]
    let restOut := contentsFormattedAux rowCF cols rest t.2.1 final_col
    (t.1 ++ sep ++ restOut.1, restOut.2)

/-- The `while contents.ends_with(b"\r\n")` loop of grid.rs lines
157-160, on the reversed token stream: strip trailing CRLF separators,
decrementing `final_row` for each. -/
def stripRev : List Token → Nat → List Token × Nat
  | Token.lf :: Token.cr :: rest, final_row => stripRev rest (final_row - 1)
  | l, final_row => (l, final_row)

/-- grid.rs lines 139-170: `Grid::contents_formatted`, parametric in the
external `Row::contents_formatted` (row.rs is not part of the sample).
The prefix `ESC[H ESC[J` is the home (`moveTo 1 1`) and clear
(`clearBelow`) pair. -/
def Grid.contents_formatted (rowCF : Row → Nat → Attrs → List Token × Attrs × Nat)
    (g : Grid) : List Token :=
  let body := contentsFormattedAux rowCF g.size.cols g.rows () 0
  let contents := Token.moveTo 1 1 :: Token.clearBelow :: body.1
  let stripped := stripRev contents.reverse g.size.rows
  let contents := stripped.1.reverse
  if stripped.2 ≠ g.pos.row ∨ body.2 ≠ g.pos.col then
    contents ++ [Token.moveTo (g.pos.row + 1) (g.pos.col + 1)]
  else contents

/-- The per-row loop of grid.rs lines 177-188: each row that actually
differs is preceded by an absolute `ESC[idx+1;1H` repositioning escape,
and updates the implied final cursor position. -/
def contentsDiffAux (rowDiff : Row → Row → Nat → Attrs → List Token × Attrs × Nat) (cols : Nat) :
    List (Row × Row) → Nat → Attrs → Nat → Nat → List Token × Nat × Nat
  | [], _, _, final_row, final_col => ([], final_row, final_col)
  | (r, pr) :: rest, idx, prev_attrs, final_row, final_col =>
    let t := rowDiff r pr cols prev_attrs
    let step :=
      if t.1 = [] then (([] : List Token), final_row, final_col)
      else (Token.moveTo (idx + 1) 1 :: t.1, idx, t.2.2)
    let tail := contentsDiffAux rowDiff cols rest (idx + 1) t.2.1 step.2.1 step.2.2
    (step.1 ++ tail.1, tail.2.1, tail.2.2)

/-- grid.rs lines 172-198: `Grid::contents_diff`, parametric in the
external `Row::contents_diff`.  The leading `reset` token is the 3-byte
style reset `ESC[m`; the implied final cursor position starts from
`prev`'s cursor. -/
def Grid.contents_diff (rowDiff : Row → Row → Nat → Attrs → List Token × Attrs × Nat)
    (g prev : Grid) : List Token :=
  let body := contentsDiffAux rowDiff g.size.cols (g.rows.zip prev.rows) 0 () prev.pos.row prev.pos.col
  let contents := Token.reset :: body.1
  if g.pos.row ≠ body.2.1 ∨ g.pos.col ≠ body.2.2 then
    contents ++ [Token.moveTo (g.pos.row + 1) (g.pos.col + 1)]
  else contents

/-- Trailing blank cells of a row. -/
def trimTrailingBlanks (l : List Cell) : List Cell :=
  (l.reverse.dropWhile (fun c => c = blankCell)).reverse

/-- Modelled from the spec: `Row::contents_formatted` belongs to the
external row collaborator (only grid.rs is in the sample).  Spec section
6: it returns the formatted output for the column range, the outgoing
attribute state, and the final column written.  A non-wrapped row shows
its content with trailing blank cells elided; a wrapped row must show
every column of the range, since the characters themselves carry the
cursor to the continuation row. -/
def rowContentsFormatted (r : Row) (cols : Nat) (attrs : Attrs) : List Token × Attrs × Nat :=
  let shown := if r.wrapped then r.cells.take cols else trimTrailingBlanks (r.cells.take cols)
  (shown.map Token.ch, attrs, shown.length)

/-- Modelled from the spec: `Row::contents_diff` (external).  Spec
section 4.6: a minimal stream transforming one row into the other, so
equal rows produce no output; unequal rows fall back to the full
formatting of the new row. -/
def rowContentsDiff (r prev : Row) (cols : Nat) (attrs : Attrs) : List Token × Attrs × Nat :=
  if r = prev then ([], attrs, 0) else rowContentsFormatted r cols attrs

/-- Modelled from the spec: the byte-stream interpreter is an external
collaborator (spec section 2: it decodes one control sequence at a time
and calls exactly one Grid method per decoded unit).  `moveTo` is
1-indexed absolute positioning; `clearBelow` erases from the cursor on;
CR homes the column and LF feeds a line through the scroll-on-overflow
path; a displayable character wraps if pending, writes the current cell
and advances the cursor (spec sections 4.5 and 6). -/
def Grid.applyToken (g : Grid) : Token → Option Grid
  | Token.moveTo row col => some (g.set_pos ⟨row - 1, col - 1⟩)
  | Token.clearBelow => g.erase_all_forward ()
  | Token.reset => some g
  | Token.cr => some (g.col_set 0)
  | Token.lf => g.row_inc_scroll 1
  | Token.ch c => do
    let g ← g.col_wrap 1
    let g ← g.modifyCurrentRow (fun r =>
      if g.pos.col < r.cells.length then some { r with cells := r.cells.set g.pos.col c }
      else none)
    pure (g.col_inc 1)

/-- Replay a token stream against an interpreter state. -/
def Grid.replay (g : Grid) : List Token → Option Grid
  | [] => some g
  | t :: ts => (g.applyToken t).bind (fun g2 => Grid.replay g2 ts)

/-! ## The public operation alphabet

One constructor per public mutating method of `Grid` (spec section 4),
used to quantify over finite sequences of public operations.  Color
arguments are unit and omitted; numeric arguments are the `u16`
parameters of the source. -/

inductive Op where
  | clear
  | set_size (s : Size)
  | set_pos (p : Pos)
  | save_cursor
  | restore_cursor
  | erase_all
  | erase_all_forward
  | erase_all_backward
  | erase_row
  | erase_row_forward
  | erase_row_backward
  | insert_cells (n : Nat)
  | delete_cells (n : Nat)
  | erase_cells (n : Nat)
  | insert_lines (n : Nat)
  | delete_lines (n : Nat)
  | scroll_up (n : Nat)
  | scroll_down (n : Nat)
  | set_scroll_region (top bottom : Nat)
  | set_origin_mode (m : Bool)
  | row_inc_clamp (n : Nat)
  | row_inc_scroll (n : Nat)
  | row_dec_clamp (n : Nat)
  | row_dec_scroll (n : Nat)
  | row_set (n : Nat)
  | col_inc (n : Nat)
  | col_inc_clamp (n : Nat)
  | col_dec (n : Nat)
  | col_tab
  | col_set (n : Nat)
  | col_wrap (n : Nat)
deriving Repr, DecidableEq

/-- Dispatch one public operation. -/
def Grid.applyOp (g : Grid) : Op → Option Grid
  | Op.clear => some g.clear
  | Op.set_size s => g.set_size s
  | Op.set_pos p => some (g.set_pos p)
  | Op.save_cursor => some g.save_cursor
  | Op.restore_cursor => some g.restore_cursor
  | Op.erase_all => some (g.erase_all ())
  | Op.erase_all_forward => g.erase_all_forward ()
  | Op.erase_all_backward => g.erase_all_backward ()
  | Op.erase_row => g.erase_row ()
  | Op.erase_row_forward => g.erase_row_forward ()
  | Op.erase_row_backward => g.erase_row_backward ()
  | Op.insert_cells n => g.insert_cells n
  | Op.delete_cells n => g.delete_cells n
  | Op.erase_cells n => g.erase_cells n ()
  | Op.insert_lines n => g.insert_lines n
  | Op.delete_lines n => g.delete_lines n
  | Op.scroll_up n => g.scroll_up n
  | Op.scroll_down n => g.scroll_down n
  | Op.set_scroll_region t b => some (g.set_scroll_region t b)
  | Op.set_origin_mode m => some (g.set_origin_mode m)
  | Op.row_inc_clamp n => some (g.row_inc_clamp n)
  | Op.row_inc_scroll n => g.row_inc_scroll n
  | Op.row_dec_clamp n => some (g.row_dec_clamp n)
  | Op.row_dec_scroll n => g.row_dec_scroll n
  | Op.row_set n => some (g.row_set n)
  | Op.col_inc n => some (g.col_inc n)
  | Op.col_inc_clamp n => some (g.col_inc_clamp n)
  | Op.col_dec n => some (g.col_dec n)
  | Op.col_tab => g.col_tab
  | Op.col_set n => some (g.col_set n)
  | Op.col_wrap n => g.col_wrap n

/-- Apply a finite sequence of public operations; `none` as soon as one
of them panics. -/
def Grid.applySeq : List Op → Grid → Option Grid
  | [], g => some g
  | op :: ops, g => (g.applyOp op).bind (Grid.applySeq ops)

/-- The operations under which the claimed invariants are actually
preserved: everything except `col_inc` (which leaves the cursor column
unclamped) and `set_size` (which never grows or shrinks `rows`, nor the
width of the retained rows). -/
def allowedOp : Op → Bool
  | Op.col_inc _ => false
  | Op.set_size _ => false
  | _ => true

/-- The invariants of the claim (spec sections 3 and 8, property 1). -/
def claimInvariants (g : Grid) : Prop :=
  g.rows.length = g.size.rows ∧
  (∀ r ∈ g.rows, r.cells.length = g.size.cols) ∧
  g.pos.row < g.size.rows ∧
  g.pos.col < g.size.cols ∧
  g.scroll_top ≤ g.scroll_bottom ∧
  g.scroll_bottom < g.size.rows

/-- Strengthening of `claimInvariants` used for the induction: the saved
cursor slot is also in range (it matters because `restore_cursor` copies
it back verbatim). -/
def GInv (g : Grid) : Prop :=
  claimInvariants g ∧ g.saved_pos.row < g.size.rows ∧ g.saved_pos.col < g.size.cols

instance : DecidablePred claimInvariants := fun g => by
  unfold claimInvariants; infer_instance

instance : DecidablePred GInv := fun g => by
  unfold GInv; infer_instance

/-! ## Concrete grids used by the counterexamples and witnesses -/

/-- The state after `new(1 x 1)` followed by `col_inc(1)`: the cursor
column equals the grid width. -/
def gridC1After : Grid := { Grid.new ⟨1, 1⟩ with pos := ⟨0, 1⟩ }

/-- The state after `new(1 x 1)` followed by `set_size(2 x 1)`: one row
retained, `size.rows = 2`. -/
def gridC3After : Grid :=
  { size := ⟨2, 1⟩, pos := ⟨0, 0⟩, saved_pos := ⟨0, 0⟩,
    rows := [⟨[' '], false⟩],
    scroll_top := 0, scroll_bottom := 0, origin_mode := false, saved_origin_mode := false }

/-- A 3 x 2 grid whose row 0 is full and wrapped, row 1 blank, row 2
occupied: the configuration on which full-replay misplaces content. -/
def gridC2 : Grid :=
  { size := ⟨3, 2⟩, pos := ⟨2, 1⟩, saved_pos := ⟨0, 0⟩,
    rows := [⟨['a', 'b'], true⟩, ⟨[' ', ' '], false⟩, ⟨['c', ' '], false⟩],
    scroll_top := 0, scroll_bottom := 2, origin_mode := false, saved_origin_mode := false }

/-- What replaying `gridC2.contents_formatted` actually produces: the
content of row 2 lands on row 1 and the cursor on (1,1). -/
def gridC2Replayed : Grid :=
  { size := ⟨3, 2⟩, pos := ⟨1, 1⟩, saved_pos := ⟨0, 0⟩,
    rows := [⟨['a', 'b'], false⟩, ⟨['c', ' '], false⟩, ⟨[' ', ' '], false⟩],
    scroll_top := 0, scroll_bottom := 2, origin_mode := false, saved_origin_mode := false }

/-- A 12 x 2 grid with distinct row markers, scroll region 5..11,
cursor at row 6 (the C4 scenario, with a region tall enough that the
scroll amount is observable in the cells). -/
def gridC4 : Grid :=
  { size := ⟨12, 2⟩, pos := ⟨6, 0⟩, saved_pos := ⟨0, 0⟩,
    rows := (List.range 12).map (fun i => ⟨[Char.ofNat (65 + i), ' '], false⟩),
    scroll_top := 5, scroll_bottom := 11, origin_mode := false, saved_origin_mode := false }

/-- A 24 x 80 grid with distinct row markers, cursor at the origin and
the default full-height scroll region (the C6 scenario). -/
def gridC6 : Grid :=
  { Grid.new ⟨24, 80⟩ with
    rows := (List.range 24).map (fun i => ⟨Char.ofNat (65 + i) :: List.replicate 79 ' ', false⟩) }

/-- A 1 x 3 grid with cells a b c and the cursor at column 1. -/
def gridC10 : Grid :=
  { size := ⟨1, 3⟩, pos := ⟨0, 1⟩, saved_pos := ⟨0, 0⟩,
    rows := [⟨['a', 'b', 'c'], false⟩],
    scroll_top := 0, scroll_bottom := 0, origin_mode := false, saved_origin_mode := false }

/-- A small 2 x 2 grid with content, used to witness the self-diff
theorems. -/
def gridC5 : Grid :=
  { size := ⟨2, 2⟩, pos := ⟨1, 0⟩, saved_pos := ⟨0, 0⟩,
    rows := [⟨['h', 'i'], false⟩, ⟨['x', ' '], false⟩],
    scroll_top := 0, scroll_bottom := 1, origin_mode := false, saved_origin_mode := false }

/-- Another small grid (3 x 2, with a wrapped row) used to witness the
self-diff equality theorem. -/
def gridC8 : Grid :=
  { size := ⟨3, 2⟩, pos := ⟨0, 1⟩, saved_pos := ⟨0, 0⟩,
    rows := [⟨['o', 'k'], true⟩, ⟨['q', ' '], false⟩, ⟨[' ', ' '], false⟩],
    scroll_top := 0, scroll_bottom := 2, origin_mode := true, saved_origin_mode := false }

/-- After `new(5 x 5)`, `set_pos(4,4)`, `save_cursor`, `set_size(2 x 2)`:
the saved slot still holds (4,4) though the grid is now 2 x 2. -/
def gridC9Shrunk : Grid :=
  { size := ⟨2, 2⟩, pos := ⟨1, 1⟩, saved_pos := ⟨4, 4⟩,
    rows := List.replicate 5 (Row.new 5),
    scroll_top := 0, scroll_bottom := 1, origin_mode := false, saved_origin_mode := false }

/-! ## Characterizations of the clamp helpers -/

theorem row_clamp_top_false (g : Grid) : g.row_clamp_top false = (g, 0) := by
  simp [Grid.row_clamp_top]

theorem row_clamp_top_true (g : Grid) :
    g.row_clamp_top true =
      ({ g with pos := { g.pos with row := max g.scroll_top g.pos.row } },
        g.scroll_top - g.pos.row) := by
  unfold Grid.row_clamp_top
  by_cases h : g.pos.row < g.scroll_top
  · simp [h, max_eq_left (Nat.le_of_lt h)]
  · simp [h, max_eq_right (Nat.le_of_not_lt h), Nat.sub_eq_zero_of_le (Nat.le_of_not_lt h)]

theorem row_clamp_bottom_true (g : Grid) :
    g.row_clamp_bottom true =
      ({ g with pos := { g.pos with row := min g.scroll_bottom g.pos.row } },
        g.pos.row - g.scroll_bottom) := by
  unfold Grid.row_clamp_bottom
  by_cases h : g.scroll_bottom < g.pos.row
  · simp [h, min_eq_left (Nat.le_of_lt h)]
  · simp [h, min_eq_right (Nat.le_of_not_lt h), Nat.sub_eq_zero_of_le (Nat.le_of_not_lt h)]

theorem row_clamp_bottom_false (g : Grid) :
    g.row_clamp_bottom false =
      ({ g with pos := { g.pos with row := min (g.size.rows - 1) g.pos.row } },
        g.pos.row - (g.size.rows - 1)) := by
  unfold Grid.row_clamp_bottom
  by_cases h : g.size.rows - 1 < g.pos.row
  · simp [h, min_eq_left (Nat.le_of_lt h)]
  · simp [h, min_eq_right (Nat.le_of_not_lt h), Nat.sub_eq_zero_of_le (Nat.le_of_not_lt h)]

theorem col_clamp_eq (g : Grid) :
    g.col_clamp = { g with pos := { g.pos with col := min (g.size.cols - 1) g.pos.col } } := by
  unfold Grid.col_clamp
  by_cases h : g.size.cols - 1 < g.pos.col
  · simp [h, min_eq_left (Nat.le_of_lt h)]
  · simp [h, min_eq_right (Nat.le_of_not_lt h)]

theorem set_pos_eq (g : Grid) (p : Pos) :
    g.set_pos p =
      { g with pos :=
        ⟨if g.origin_mode
            then min g.scroll_bottom (max g.scroll_top (satAdd p.row g.scroll_top))
            else min (g.size.rows - 1) p.row,
          min (g.size.cols - 1) p.col⟩ } := by
  unfold Grid.set_pos
  cases h : g.origin_mode <;>
    simp [h, row_clamp_top_false, row_clamp_top_true, row_clamp_bottom_false,
      row_clamp_bottom_true, col_clamp_eq]

/-- `row_inc_scroll` in closed form: move down saturating, clamp to
`scroll_bottom`, convert the overshoot one-for-one into `scroll_up`
lines. -/
theorem row_inc_scroll_eq (g : Grid) (n : Nat) :
    g.row_inc_scroll n =
      Grid.scroll_up
        { g with pos := { g.pos with row := min g.scroll_bottom (satAdd g.pos.row n) } }
        (satAdd g.pos.row n - g.scroll_bottom) := by
  unfold Grid.row_inc_scroll
  simp [row_clamp_bottom_true]

/-- C9: `restore_cursor` copies the saved position and saved origin-mode
flag into the current cursor verbatim, with no clamping and no other
field modified; the saved slot itself is unchanged, repeated restores
are idempotent, and after a shrinking `set_size` the restored position
lies outside the current grid. -/
theorem C9_restore_cursor_verbatim :
    (∀ g : Grid, g.restore_cursor =
        { g with pos := g.saved_pos, origin_mode := g.saved_origin_mode }) ∧
    (∀ g : Grid, g.restore_cursor.saved_pos = g.saved_pos ∧
        g.restore_cursor.saved_origin_mode = g.saved_origin_mode) ∧
    (∀ g : Grid, g.restore_cursor.restore_cursor = g.restore_cursor) ∧
    ((((Grid.new ⟨5, 5⟩).set_pos ⟨4, 4⟩).save_cursor).set_size ⟨2, 2⟩ = some gridC9Shrunk ∧
      ¬ gridC9Shrunk.restore_cursor.pos.row < gridC9Shrunk.restore_cursor.size.rows ∧
      ¬ gridC9Shrunk.restore_cursor.pos.col < gridC9Shrunk.restore_cursor.size.cols) := by
  refine ⟨fun g => rfl, fun g => ⟨rfl, rfl⟩, fun g => rfl, by decide, by decide, by decide⟩

/-- C7: `set_pos` offsets the requested row by `scroll_top` when origin
mode is on and clamps it to the scroll region; otherwise it clamps the
row to the grid; the column is always clamped to the grid width. -/
theorem C7_set_pos_clamps (g : Grid) (p : Pos)
    (hr : 1 ≤ g.size.rows) (hc : 1 ≤ g.size.cols) :
    (g.set_pos p).pos =
      ⟨if g.origin_mode
          then min (max (satAdd p.row g.scroll_top) g.scroll_top) g.scroll_bottom
          else min p.row (g.size.rows - 1),
        min p.col (g.size.cols - 1)⟩ := by
  rw [set_pos_eq]
  cases h : g.origin_mode <;> simp [h, Nat.min_comm, Nat.max_comm]

/-- Witness for C7 at a concrete grid and requested position. -/
theorem C7_witness :
    (gridC5.set_pos ⟨9, 9⟩).pos = ⟨1, 1⟩ ∧ 1 ≤ gridC5.size.rows ∧ 1 ≤ gridC5.size.cols := by
  refine ⟨?_, by decide, by decide⟩
  rw [C7_set_pos_clamps gridC5 ⟨9, 9⟩ (by decide) (by decide)]
  decide

/-- C6: on a 24 x 80 grid with the cursor at row 0 and the default
full-height scroll region, `row_inc_scroll(30)` leaves the cursor at row
23 and scrolls the region up by exactly 7 lines; in general the
overshoot past `scroll_bottom` is converted one-for-one into
`scroll_up` lines. -/
theorem C6_row_inc_scroll_overflow :
    (∀ (g : Grid) (n : Nat),
      g.row_inc_scroll n =
        Grid.scroll_up
          { g with pos := { g.pos with row := min g.scroll_bottom (satAdd g.pos.row n) } }
          (satAdd g.pos.row n - g.scroll_bottom)) ∧
    gridC6.row_inc_scroll 30 =
      some { gridC6 with
             pos := ⟨23, 0⟩,
             rows :=
               ((List.range 24).map
                 (fun i => ⟨Char.ofNat (65 + i) :: List.replicate 79 ' ', false⟩)).drop 7
               ++ List.replicate 7 (Row.new 80) } := by
  refine ⟨row_inc_scroll_eq, by decide⟩

/-- C4 counterexample: on a grid with `scroll_top = 5`, cursor row 6 and
scroll region 5..11, `row_dec_scroll(10)` does leave the cursor at row
5, but the resulting state is not the claimed scroll-down-by-5 state. -/
theorem C4_counterexample :
    (gridC4.row_dec_scroll 10).map (fun g => g.pos.row) = some 5 ∧
    gridC4.row_dec_scroll 10 ≠ Grid.scroll_down { gridC4 with pos := ⟨5, 0⟩ } 5 := by
  exact ⟨by decide, by decide⟩

/-- C4 (amended): with `scroll_top = 5` and the cursor at row 6,
`row_dec_scroll(10)` scrolls the region down by
`(10 - 6) + (5 - 0) = 9` lines — the amount absorbed by the saturating
subtraction plus the clamp overshoot from row 0 up to `scroll_top` —
and leaves the cursor at row 5. -/
theorem C4_row_dec_scroll_amended (g : Grid)
    (htop : g.scroll_top = 5) (hrow : g.pos.row = 6) :
    g.row_dec_scroll 10 = Grid.scroll_down { g with pos := { g.pos with row := 5 } } 9 := by
  simp [Grid.row_dec_scroll, row_clamp_top_true, htop, hrow]

/-- Witness for C4 (amended) at the concrete 12 x 2 grid. -/
theorem C4_witness :
    gridC4.scroll_top = 5 ∧ gridC4.pos.row = 6 ∧
    gridC4.row_dec_scroll 10 =
      Grid.scroll_down { gridC4 with pos := { gridC4.pos with row := 5 } } 9 :=
  ⟨rfl, rfl, C4_row_dec_scroll_amended gridC4 rfl rfl⟩

/-! ## List surgery lemmas for the cell-deletion characterization -/

theorem removeAt?_eq_some {α : Type} (i : Nat) (l : List α) (h : i < l.length) :
    removeAt? i l = some (l.take i ++ l.drop (i + 1)) := by
  induction l generalizing i with
  | nil => simp at h
  | cons x xs ih =>
    cases i with
    | zero => simp [removeAt?]
    | succ n => simp [removeAt?, ih n (by simpa using h)]

theorem iterOpt_removeAt? {α : Type} (k : Nat) :
    ∀ (col : Nat) (l : List α), col + k ≤ l.length →
      iterOpt (removeAt? col) k l = some (l.take col ++ l.drop (col + k)) := by
  induction k with
  | zero => intro col l h; simp [iterOpt]
  | succ n ih =>
    intro col l h
    have hc : col < l.length := by omega
    have hlen : col + n ≤ (l.take col ++ l.drop (col + 1)).length := by
      simp [List.length_take, List.length_drop]; omega
    rw [iterOpt, removeAt?_eq_some col l hc, Option.some_bind, ih col _ hlen]
    have htake : (l.take col ++ l.drop (col + 1)).take col = l.take col := by
      rw [List.take_append_eq_append_take]
      simp [List.length_take, Nat.min_le_left, List.take_take]
      omega
    have hdrop : (l.take col ++ l.drop (col + 1)).drop (col + n) = l.drop (col + (n + 1)) := by
      rw [List.drop_append_eq_append_drop]
      have h1 : (l.take col).length = col := by
        rw [List.length_take]; omega
      rw [List.drop_eq_nil_of_le (by omega : (l.take col).length ≤ col + n)]
      rw [List.nil_append, h1]
      have h2 : col + n - col = n := by omega
      rw [h2, List.drop_drop]
      congr 1
      omega
    rw [htake, hdrop]

/-- C10: `delete_cells` is total only when the cursor column does not
exceed the grid width — the loop bound `size.cols - pos.col` underflows
otherwise (given a cursor row that addresses a row, so the earlier
`current_row_mut` expect does not fire first); `col_inc` does not
maintain that precondition; and under the precondition the operation
removes `min n (size.cols - pos.col)` cells at the cursor column and
resizes the row back to the grid width with blank cells. -/
theorem C10_delete_cells_precondition (g : Grid) (n : Nat) :
    (g.pos.row < g.rows.length → g.size.cols < g.pos.col → g.delete_cells n = none) ∧
    (∀ r, g.rows[g.pos.row]? = some r → r.cells.length = g.size.cols →
      g.pos.col ≤ g.size.cols →
      g.delete_cells n =
        some { g with rows := (g.rows.set g.pos.row
          { r with cells :=
              r.cells.take g.pos.col ++
              r.cells.drop (g.pos.col + min n (g.size.cols - g.pos.col)) ++
              List.replicate (min n (g.size.cols - g.pos.col)) blankCell }) }) ∧
    (((Grid.new ⟨1, 1⟩).col_inc 2).size.cols < ((Grid.new ⟨1, 1⟩).col_inc 2).pos.col ∧
      ((Grid.new ⟨1, 1⟩).col_inc 2).delete_cells 1 = none) := by
  refine ⟨?_, ?_, by decide, by decide⟩
  · intro hrow hcol
    have hr : g.rows[g.pos.row]? = some g.rows[g.pos.row] := List.getElem?_eq_getElem hrow
    simp [Grid.delete_cells, Grid.modifyCurrentRow, hr, Nat.not_le.mpr hcol]
  · intro r hr hw hc
    have hbound : g.pos.col + min n (g.size.cols - g.pos.col) ≤ r.cells.length := by
      rw [hw]; omega
    simp only [Grid.delete_cells, Grid.modifyCurrentRow, hr, if_pos hc,
      iterOpt_removeAt? _ _ _ hbound, Option.map_some']
    have hlen : (r.cells.take g.pos.col ++
        r.cells.drop (g.pos.col + min n (g.size.cols - g.pos.col))).length
        = g.size.cols - min n (g.size.cols - g.pos.col) := by
      simp [List.length_take, List.length_drop, hw]; omega
    have hres : listResize g.size.cols blankCell
        (r.cells.take g.pos.col ++
          r.cells.drop (g.pos.col + min n (g.size.cols - g.pos.col)))
        = r.cells.take g.pos.col ++
          r.cells.drop (g.pos.col + min n (g.size.cols - g.pos.col)) ++
          List.replicate (min n (g.size.cols - g.pos.col)) blankCell := by
      have hmin : min n (g.size.cols - g.pos.col) ≤ g.size.cols :=
        le_trans (Nat.min_le_right _ _) (Nat.sub_le _ _)
      unfold listResize
      rw [List.take_of_length_le (by omega : _ ≤ g.size.cols), hlen]
      congr 2
      omega
    rw [hres]

/-- Witness for C10: the underflow branch at a cursor pushed past the
width by `col_inc`, and the effect branch on a concrete 1 x 3 row. -/
theorem C10_witness :
    ((Grid.new ⟨1, 1⟩).col_inc 2).delete_cells 1 = none ∧
    gridC10.delete_cells 1 = some { gridC10 with rows := [⟨['a', 'c', ' '], false⟩] } := by
  constructor
  · exact (C10_delete_cells_precondition ((Grid.new ⟨1, 1⟩).col_inc 2) 1).1
      (by decide) (by decide)
  · rw [(C10_delete_cells_precondition gridC10 1).2.1 ⟨['a', 'b', 'c'], false⟩
      (by decide) (by decide) (by decide)]
    decide

/-- C3 (code bug): `set_size` never grows or shrinks the row sequence —
after `new(1 x 1)` and `set_size(2 x 1)` the grid holds one row while
`size.rows = 2`, and the public sequence continuing with `set_pos(1,0)`
and `erase_row` reaches the `expect("cursor not pointing to a cell")`
panic. -/
theorem C3_set_size_rows_unchanged :
    (Grid.new ⟨1, 1⟩).set_size ⟨2, 1⟩ = some gridC3After ∧
    gridC3After.size.rows = 2 ∧
    gridC3After.rows.length = 1 ∧
    (gridC3After.set_pos ⟨1, 0⟩).erase_row () = none := by
  exact ⟨by decide, rfl, rfl, by decide⟩

/-- C1 counterexample: starting from `new(1 x 1)`, the single public
operation `col_inc(1)` leaves a state with `pos.col = size.cols`,
violating the claimed invariant `pos.col < size.cols`. -/
theorem C1_counterexample :
    Grid.applySeq [Op.col_inc 1] (Grid.new ⟨1, 1⟩) = some gridC1After ∧
    ¬ claimInvariants gridC1After := by
  exact ⟨by decide, by decide⟩

theorem zip_self_eq_map {α : Type} (l : List α) : l.zip l = l.map (fun a => (a, a)) := by
  induction l with
  | nil => rfl
  | cons x xs ih => simp [ih]

/-- When every row's diff against itself is empty, the per-row diff loop
emits nothing and leaves the implied final cursor position untouched. -/
theorem contentsDiffAux_zip_self (rowDiff : Row → Row → Nat → Attrs → List Token × Attrs × Nat)
    (cols : Nat) (rows : List Row)
    (h : ∀ r ∈ rows, (rowDiff r r cols ()).1 = []) :
    ∀ (idx : Nat) (a : Attrs) (fr fc : Nat),
      contentsDiffAux rowDiff cols (rows.zip rows) idx a fr fc = ([], fr, fc) := by
  rw [zip_self_eq_map]
  induction rows with
  | nil => intro idx a fr fc; simp [contentsDiffAux]
  | cons r rest ih =>
    intro idx a fr fc
    have hr : (rowDiff r r cols a).1 = [] := h r (List.mem_cons_self r rest)
    have ih2 := ih (fun x hx => h x (List.mem_cons_of_mem _ hx)) (idx + 1)
      (rowDiff r r cols a).2.1 fr fc
    simp [contentsDiffAux, hr, ih2]

/-- C8: for a grid whose rows each produce an empty row-level diff
against themselves, `contents_diff` of the grid against itself is
exactly the style reset `ESC[m` (one `reset` token): no cursor
positioning escape is appended, because the implied final position is
initialized from `prev`'s cursor, which is the grid's own cursor. -/
theorem C8_contents_diff_self_reset
    (rowDiff : Row → Row → Nat → Attrs → List Token × Attrs × Nat) (g : Grid)
    (h : ∀ r ∈ g.rows, (rowDiff r r g.size.cols ()).1 = []) :
    Grid.contents_diff rowDiff g g = [Token.reset] := by
  simp [Grid.contents_diff, contentsDiffAux_zip_self rowDiff g.size.cols g.rows h]

/-- Witness for C8 on a concrete grid with the spec-modelled row diff. -/
theorem C8_witness :
    (∀ r ∈ gridC8.rows, (rowContentsDiff r r gridC8.size.cols ()).1 = []) ∧
    Grid.contents_diff rowContentsDiff gridC8 gridC8 = [Token.reset] :=
  ⟨by decide, C8_contents_diff_self_reset rowContentsDiff gridC8 (by decide)⟩

/-- C5: diffing a grid against itself emits no row-repositioning escape
(and in fact no positioning escape at all) when each row's self-diff is
empty, as the spec requires of the external row diff. -/
theorem C5_diff_self_no_row_content
    (rowDiff : Row → Row → Nat → Attrs → List Token × Attrs × Nat) (g : Grid)
    (h : ∀ r ∈ g.rows, (rowDiff r r g.size.cols ()).1 = []) :
    ∀ i c, Token.moveTo i c ∉ Grid.contents_diff rowDiff g g := by
  intro i c
  have hd : Grid.contents_diff rowDiff g g = [Token.reset] := by
    simp [Grid.contents_diff, contentsDiffAux_zip_self rowDiff g.size.cols g.rows h]
  rw [hd]
  simp

/-- Witness for C5 on a concrete grid with the spec-modelled row diff. -/
theorem C5_witness :
    (∀ r ∈ gridC5.rows, (rowContentsDiff r r gridC5.size.cols ()).1 = []) ∧
    Token.moveTo 1 1 ∉ Grid.contents_diff rowContentsDiff gridC5 gridC5 :=
  ⟨by decide, C5_diff_self_no_row_content rowContentsDiff gridC5 (by decide) 1 1⟩

/-- C2 (code bug): replaying `contents_formatted` of a grid whose
wrapped full row is followed by a blank row and then an occupied row
reproduces neither the cells nor the cursor: the CRLF emitted for the
blank row consumes the pending-wrap cursor position left by the wrapped
row's characters, shifting all later content up one row. -/
theorem C2_full_replay_code_bug :
    (Grid.new gridC2.size).replay (Grid.contents_formatted rowContentsFormatted gridC2) =
      some gridC2Replayed ∧
    gridC2Replayed.rows.map Row.cells ≠ gridC2.rows.map Row.cells ∧
    gridC2Replayed.pos ≠ gridC2.pos := by
  exact ⟨by decide, by decide, by decide⟩

/-! ## Invariant preservation machinery for C1 -/

theorem mem_of_getElemOpt {α : Type} {l : List α} {i : Nat} {x : α}
    (h : l[i]? = some x) : x ∈ l := by
  obtain ⟨hlt, rfl⟩ := List.getElem?_eq_some.mp h
  exact List.getElem_mem hlt

theorem insertAt?_length {α : Type} :
    ∀ {i : Nat} {a : α} {l l2 : List α}, insertAt? i a l = some l2 → l2.length = l.length + 1 := by
  intro i
  induction i with
  | zero => intro a l l2 h; cases h; simp [insertAt?]
  | succ n ih =>
    intro a l l2 h
    cases l with
    | nil => simp [insertAt?] at h
    | cons x xs =>
      simp only [insertAt?, Option.map_eq_some'] at h
      obtain ⟨l1, h1, rfl⟩ := h
      simp [ih h1]

theorem insertAt?_mem {α : Type} :
    ∀ {i : Nat} {a : α} {l l2 : List α}, insertAt? i a l = some l2 →
      ∀ x ∈ l2, x = a ∨ x ∈ l := by
  intro i
  induction i with
  | zero =>
    intro a l l2 h x hx
    cases h
    rcases List.mem_cons.mp hx with rfl | hmem
    · exact Or.inl rfl
    · exact Or.inr hmem
  | succ n ih =>
    intro a l l2 h x hx
    cases l with
    | nil => simp [insertAt?] at h
    | cons y ys =>
      simp only [insertAt?, Option.map_eq_some'] at h
      obtain ⟨l1, h1, rfl⟩ := h
      rcases List.mem_cons.mp hx with rfl | hmem
      · exact Or.inr (List.mem_cons_self x ys)
      · rcases ih h1 x hmem with hh | hh
        · exact Or.inl hh
        · exact Or.inr (List.mem_cons_of_mem y hh)

theorem removeAt?_length {α : Type} :
    ∀ {i : Nat} {l l2 : List α}, removeAt? i l = some l2 → l2.length + 1 = l.length := by
  intro i
  induction i with
  | zero =>
    intro l l2 h
    cases l with
    | nil => simp [removeAt?] at h
    | cons x xs => cases h; simp
  | succ n ih =>
    intro l l2 h
    cases l with
    | nil => simp [removeAt?] at h
    | cons x xs =>
      simp only [removeAt?, Option.map_eq_some'] at h
      obtain ⟨l1, h1, rfl⟩ := h
      simp [← ih h1]

theorem removeAt?_mem {α : Type} :
    ∀ {i : Nat} {l l2 : List α}, removeAt? i l = some l2 → ∀ x ∈ l2, x ∈ l := by
  intro i
  induction i with
  | zero =>
    intro l l2 h x hx
    cases l with
    | nil => simp [removeAt?] at h
    | cons y ys => cases h; exact List.mem_cons_of_mem y hx
  | succ n ih =>
    intro l l2 h x hx
    cases l with
    | nil => simp [removeAt?] at h
    | cons y ys =>
      simp only [removeAt?, Option.map_eq_some'] at h
      obtain ⟨l1, h1, rfl⟩ := h
      rcases List.mem_cons.mp hx with rfl | hmem
      · exact List.mem_cons_self x ys
      · exact List.mem_cons_of_mem y (ih h1 x hmem)

theorem mapIdxFrom_length {α : Type} (f : Nat → α → α) :
    ∀ (i : Nat) (l : List α), (mapIdxFrom f i l).length = l.length := by
  intro i l
  induction l generalizing i with
  | nil => rfl
  | cons x xs ih => simp [mapIdxFrom, ih]

theorem mapIdxFrom_mem {α : Type} (f : Nat → α → α) :
    ∀ (i : Nat) (l : List α) (x : α), x ∈ mapIdxFrom f i l → ∃ j y, y ∈ l ∧ x = f j y := by
  intro i l
  induction l generalizing i with
  | nil => intro x hx; simp [mapIdxFrom] at hx
  | cons z zs ih =>
    intro x hx
    rcases List.mem_cons.mp hx with rfl | hmem
    · exact ⟨i, z, List.mem_cons_self z zs, rfl⟩
    · obtain ⟨j, y, hy, rfl⟩ := ih (i + 1) x hmem
      exact ⟨j, y, List.mem_cons_of_mem z hy, rfl⟩

theorem listResize_length {α : Type} (n : Nat) (a : α) (l : List α) :
    (listResize n a l).length = n := by
  simp [listResize, List.length_take, List.length_replicate]
  omega

theorem iterOpt_pres {α : Type} {P : α → Prop} {f : α → Option α}
    (hf : ∀ a b, P a → f a = some b → P b) :
    ∀ (n : Nat) (a b : α), P a → iterOpt f n a = some b → P b := by
  intro n
  induction n with
  | zero => intro a b ha h; cases h; exact ha
  | succ m ih =>
    intro a b ha h
    rw [iterOpt, Option.bind_eq_some] at h
    obtain ⟨a1, h1, h2⟩ := h
    exact ih a1 b (hf a a1 ha h1) h2

theorem iterOpt_insertAt?_length {α : Type} (i : Nat) (a : α) :
    ∀ (n : Nat) (l l2 : List α), iterOpt (insertAt? i a) n l = some l2 →
      l2.length = l.length + n := by
  intro n
  induction n with
  | zero => intro l l2 h; cases h; rfl
  | succ m ih =>
    intro l l2 h
    rw [iterOpt, Option.bind_eq_some] at h
    obtain ⟨l1, h1, h2⟩ := h
    rw [ih l1 l2 h2, insertAt?_length h1]
    omega

theorem ginv_rows_update {g : Grid} {rows2 : List Row} (h : GInv g)
    (hlen : rows2.length = g.rows.length)
    (hw : ∀ r ∈ rows2, r.cells.length = g.size.cols) :
    GInv { g with rows := rows2 } := by
  obtain ⟨⟨h1, h2, h3, h4, h5, h6⟩, h7, h8⟩ := h
  exact ⟨⟨by rw [hlen, h1], hw, h3, h4, h5, h6⟩, h7, h8⟩

theorem ginv_pos_update {g : Grid} {p : Pos} (h : GInv g)
    (hr : p.row < g.size.rows) (hc : p.col < g.size.cols) :
    GInv { g with pos := p } := by
  obtain ⟨⟨h1, h2, h3, h4, h5, h6⟩, h7, h8⟩ := h
  exact ⟨⟨h1, h2, hr, hc, h5, h6⟩, h7, h8⟩

theorem ginv_modifyCurrentRow {g : Grid} {f : Row → Option Row} (h : GInv g)
    (hf : ∀ r r2, r ∈ g.rows → f r = some r2 → r2.cells.length = g.size.cols) :
    ∀ g2, g.modifyCurrentRow f = some g2 → GInv g2 := by
  intro g2 hm
  unfold Grid.modifyCurrentRow at hm
  cases hget : g.rows[g.pos.row]? with
  | none => rw [hget] at hm; cases hm
  | some r =>
    rw [hget] at hm
    rw [Option.map_eq_some'] at hm
    obtain ⟨r2, hr2, rfl⟩ := hm
    refine ginv_rows_update h (List.length_set g.rows _ _) ?_
    intro x hx
    rcases List.mem_or_eq_of_mem_set hx with hx | rfl
    · exact h.1.2.1 x hx
    · exact hf r x (mem_of_getElemOpt hget) hr2

/-- Shape preservation for a remove-then-insert round trip on the row
sequence. -/
theorem rows_remove_insert_ok {rows rows1 rows2 : List Row} {i j : Nat} {r0 : Row} {c : Nat}
    (h1 : removeAt? i rows = some rows1) (h2 : insertAt? j r0 rows1 = some rows2)
    (hw : ∀ r ∈ rows, r.cells.length = c) (hw0 : r0.cells.length = c) :
    rows2.length = rows.length ∧ ∀ r ∈ rows2, r.cells.length = c := by
  have hl1 := removeAt?_length h1
  have hl2 := insertAt?_length h2
  constructor
  · omega
  · intro r hr
    rcases insertAt?_mem h2 r hr with rfl | hmem
    · exact hw0
    · exact hw r (removeAt?_mem h1 r hmem)

/-- Shape preservation for an insert-then-remove round trip on the row
sequence. -/
theorem rows_insert_remove_ok {rows rows1 rows2 : List Row} {i j : Nat} {r0 : Row} {c : Nat}
    (h1 : insertAt? j r0 rows = some rows1) (h2 : removeAt? i rows1 = some rows2)
    (hw : ∀ r ∈ rows, r.cells.length = c) (hw0 : r0.cells.length = c) :
    rows2.length = rows.length ∧ ∀ r ∈ rows2, r.cells.length = c := by
  have hl1 := insertAt?_length h1
  have hl2 := removeAt?_length h2
  constructor
  · omega
  · intro r hr
    rcases insertAt?_mem h1 r (removeAt?_mem h2 r hr) with rfl | hmem
    · exact hw0
    · exact hw r hmem

theorem ginv_scroll_up {g : Grid} (h : GInv g) :
    ∀ g2 n, g.scroll_up n = some g2 → GInv g2 := by
  intro g2 n hs
  unfold Grid.scroll_up at hs
  rw [if_pos (le_of_lt (lt_of_le_of_lt h.1.2.2.2.2.1 h.1.2.2.2.2.2))] at hs
  refine iterOpt_pres ?_ _ g g2 h hs
  intro a b ha hab
  simp only [bind, Option.bind_eq_some, Option.pure_def, Option.some.injEq] at hab
  obtain ⟨rs1, hrs1, rs2, hrs2, hb⟩ := hab
  subst hb
  obtain ⟨hlen, hw⟩ := rows_insert_remove_ok hrs1 hrs2 ha.1.2.1
    (by simp [Grid.new_row, Row.new])
  exact ginv_rows_update ha hlen hw

theorem ginv_scroll_down {g : Grid} (h : GInv g) :
    ∀ g2 n, g.scroll_down n = some g2 → GInv g2 := by
  intro g2 n hs
  unfold Grid.scroll_down at hs
  refine iterOpt_pres ?_ _ g g2 h hs
  intro a b ha hab
  simp only [bind, Option.bind_eq_some, Option.pure_def, Option.some.injEq] at hab
  obtain ⟨rs1, hrs1, rs2, hrs2, hb⟩ := hab
  subst hb
  obtain ⟨hlen, hw⟩ := rows_remove_insert_ok hrs1 hrs2 ha.1.2.1
    (by simp [Grid.new_row, Row.new])
  exact ginv_rows_update ha hlen hw

theorem ginv_insert_lines {g : Grid} (h : GInv g) :
    ∀ g2 n, g.insert_lines n = some g2 → GInv g2 := by
  intro g2 n hs
  unfold Grid.insert_lines at hs
  refine iterOpt_pres ?_ _ g g2 h hs
  intro a b ha hab
  simp only [bind, Option.bind_eq_some, Option.pure_def, Option.some.injEq] at hab
  obtain ⟨rs1, hrs1, rs2, hrs2, hb⟩ := hab
  subst hb
  obtain ⟨hlen, hw⟩ := rows_remove_insert_ok hrs1 hrs2 ha.1.2.1
    (by simp [Grid.new_row, Row.new])
  exact ginv_rows_update ha hlen hw

theorem ginv_delete_lines {g : Grid} (h : GInv g) :
    ∀ g2 n, g.delete_lines n = some g2 → GInv g2 := by
  intro g2 n hs
  unfold Grid.delete_lines at hs
  rw [if_pos (le_of_lt (lt_of_lt_of_le h.1.2.2.1 (le_refl _)))] at hs
  refine iterOpt_pres ?_ _ g g2 h hs
  intro a b ha hab
  simp only [bind, Option.bind_eq_some, Option.pure_def, Option.some.injEq] at hab
  obtain ⟨rs1, hrs1, rs2, hrs2, hb⟩ := hab
  subst hb
  obtain ⟨hlen, hw⟩ := rows_insert_remove_ok hrs1 hrs2 ha.1.2.1
    (by simp [Grid.new_row, Row.new])
  exact ginv_rows_update ha hlen hw

theorem ginv_new (s : Size) (hr : 1 ≤ s.rows) (hc : 1 ≤ s.cols) : GInv (Grid.new s) := by
  refine ⟨⟨?_, ?_, ?_, ?_, ?_, ?_⟩, ?_, ?_⟩
  · simp [Grid.new]
  · intro r hrr
    simp only [Grid.new] at hrr
    simp [List.eq_of_mem_replicate hrr, Row.new, Grid.new]
  · simpa [Grid.new] using hr
  · simpa [Grid.new] using hc
  · simp [Grid.new]
  · simp only [Grid.new]; omega
  · simpa [Grid.new] using hr
  · simpa [Grid.new] using hc

theorem ginv_clear {g : Grid} (h : GInv g) : GInv g.clear := by
  obtain ⟨⟨h1, h2, h3, h4, h5, h6⟩, h7, h8⟩ := h
  refine ⟨⟨?_, ?_, ?_, ?_, ?_, ?_⟩, ?_, ?_⟩
  · simpa [Grid.clear] using h1
  · intro r hrr
    simp only [Grid.clear, List.mem_map] at hrr
    obtain ⟨r0, hr0, rfl⟩ := hrr
    simpa [Row.clear] using h2 r0 hr0
  · simp only [Grid.clear]; omega
  · simp only [Grid.clear]; omega
  · simp [Grid.clear]
  · simp only [Grid.clear]; omega
  · simp only [Grid.clear]; omega
  · simp only [Grid.clear]; omega

theorem ginv_set_pos {g : Grid} (h : GInv g) (p : Pos) : GInv (g.set_pos p) := by
  rw [set_pos_eq]
  have hrow : (if g.origin_mode
      then min g.scroll_bottom (max g.scroll_top (satAdd p.row g.scroll_top))
      else min (g.size.rows - 1) p.row) < g.size.rows := by
    obtain ⟨⟨h1, h2, h3, h4, h5, h6⟩, h7, h8⟩ := h
    split <;> omega
  have hcol : min (g.size.cols - 1) p.col < g.size.cols := by
    obtain ⟨⟨h1, h2, h3, h4, h5, h6⟩, h7, h8⟩ := h
    omega
  exact ginv_pos_update h hrow hcol

theorem ginv_save_cursor {g : Grid} (h : GInv g) : GInv g.save_cursor := by
  obtain ⟨⟨h1, h2, h3, h4, h5, h6⟩, h7, h8⟩ := h
  exact ⟨⟨h1, h2, h3, h4, h5, h6⟩, h3, h4⟩

theorem ginv_restore_cursor {g : Grid} (h : GInv g) : GInv g.restore_cursor := by
  obtain ⟨⟨h1, h2, h3, h4, h5, h6⟩, h7, h8⟩ := h
  exact ⟨⟨h1, h2, h7, h8, h5, h6⟩, h7, h8⟩

theorem ginv_erase_all {g : Grid} (h : GInv g) (bg : Color) : GInv (g.erase_all bg) := by
  have hw : ∀ r ∈ g.rows.map (fun r => r.clear bg), r.cells.length = g.size.cols := by
    intro r hr
    simp only [List.mem_map] at hr
    obtain ⟨r0, hr0, rfl⟩ := hr
    simpa [Row.clear] using h.1.2.1 r0 hr0
  exact ginv_rows_update h (by simp) hw

theorem widths_mapIdxFrom_rows {g : Grid} (h : GInv g) (f : Nat → Row → Row)
    (hf : ∀ j r, r ∈ g.rows → (f j r).cells.length = r.cells.length) :
    ∀ r ∈ mapIdxFrom f 0 g.rows, r.cells.length = g.size.cols := by
  intro r hr
  obtain ⟨j, y, hy, rfl⟩ := mapIdxFrom_mem f 0 g.rows r hr
  rw [hf j y hy]
  exact h.1.2.1 y hy

theorem ginv_erase_row {g : Grid} (h : GInv g) (bg : Color) :
    ∀ g2, g.erase_row bg = some g2 → GInv g2 := by
  intro g2 hm
  refine ginv_modifyCurrentRow h ?_ g2 hm
  intro r r2 hr hr2
  cases hr2
  simpa [Row.clear] using h.1.2.1 r hr

theorem ginv_erase_row_forward {g : Grid} (h : GInv g) (bg : Color) :
    ∀ g2, g.erase_row_forward bg = some g2 → GInv g2 := by
  intro g2 hm
  refine ginv_modifyCurrentRow h ?_ g2 hm
  intro r r2 hr hr2
  cases hr2
  simpa [mapIdxFrom_length] using h.1.2.1 r hr

theorem ginv_erase_row_backward {g : Grid} (h : GInv g) (bg : Color) :
    ∀ g2, g.erase_row_backward bg = some g2 → GInv g2 := by
  intro g2 hm
  refine ginv_modifyCurrentRow h ?_ g2 hm
  intro r r2 hr hr2
  cases hr2
  simpa [mapIdxFrom_length] using h.1.2.1 r hr

theorem ginv_erase_all_forward {g : Grid} (h : GInv g) (bg : Color) :
    ∀ g2, g.erase_all_forward bg = some g2 → GInv g2 := by
  intro g2 hm
  unfold Grid.erase_all_forward at hm
  have h1 : GInv { g with rows :=
      (mapIdxFrom (fun i r => if g.pos.row + 1 ≤ i then r.clear bg else r) 0 g.rows) } := by
    refine ginv_rows_update h (mapIdxFrom_length _ _ _) ?_
    refine widths_mapIdxFrom_rows h _ ?_
    intro j r hr
    split
    · simp [Row.clear]
    · rfl
  exact ginv_erase_row_forward h1 bg g2 hm

theorem ginv_erase_all_backward {g : Grid} (h : GInv g) (bg : Color) :
    ∀ g2, g.erase_all_backward bg = some g2 → GInv g2 := by
  intro g2 hm
  unfold Grid.erase_all_backward at hm
  have h1 : GInv { g with rows :=
      (mapIdxFrom (fun i r => if i < g.pos.row then r.clear bg else r) 0 g.rows) } := by
    refine ginv_rows_update h (mapIdxFrom_length _ _ _) ?_
    refine widths_mapIdxFrom_rows h _ ?_
    intro j r hr
    split
    · simp [Row.clear]
    · rfl
  exact ginv_erase_row_backward h1 bg g2 hm

theorem ginv_insert_cells {g : Grid} (h : GInv g) (n : Nat) :
    ∀ g2, g.insert_cells n = some g2 → GInv g2 := by
  intro g2 hm
  refine ginv_modifyCurrentRow h ?_ g2 hm
  intro r r2 hr hr2
  rw [Option.map_eq_some'] at hr2
  obtain ⟨cs, hcs, rfl⟩ := hr2
  have hlen := iterOpt_insertAt?_length _ _ _ _ _ hcs
  have hrw := h.1.2.1 r hr
  simp only [List.length_take, hlen, hrw]
  omega

theorem ginv_delete_cells {g : Grid} (h : GInv g) (n : Nat) :
    ∀ g2, g.delete_cells n = some g2 → GInv g2 := by
  intro g2 hm
  refine ginv_modifyCurrentRow h ?_ g2 hm
  intro r r2 hr hr2
  split at hr2
  · rw [Option.map_eq_some'] at hr2
    obtain ⟨cs, hcs, rfl⟩ := hr2
    simp [listResize_length]
  · cases hr2

theorem ginv_erase_cells {g : Grid} (h : GInv g) (n : Nat) (bg : Color) :
    ∀ g2, g.erase_cells n bg = some g2 → GInv g2 := by
  intro g2 hm
  refine ginv_modifyCurrentRow h ?_ g2 hm
  intro r r2 hr hr2
  cases hr2
  simpa [mapIdxFrom_length] using h.1.2.1 r hr

theorem row_inc_clamp_eq (g : Grid) (n : Nat) :
    g.row_inc_clamp n =
      { g with pos := { g.pos with row := min g.scroll_bottom (satAdd g.pos.row n) } } := by
  simp [Grid.row_inc_clamp, row_clamp_bottom_true]

theorem row_dec_clamp_eq (g : Grid) (n : Nat) :
    g.row_dec_clamp n =
      { g with pos := { g.pos with row := max g.scroll_top (g.pos.row - n) } } := by
  simp [Grid.row_dec_clamp, row_clamp_top_true]

theorem row_set_eq (g : Grid) (i : Nat) :
    g.row_set i =
      { g with pos := { g.pos with row := min g.scroll_bottom (max g.scroll_top i) } } := by
  simp [Grid.row_set, row_clamp_top_true, row_clamp_bottom_true]

theorem row_dec_scroll_eq (g : Grid) (n : Nat) :
    g.row_dec_scroll n =
      Grid.scroll_down { g with pos := { g.pos with row := max g.scroll_top (g.pos.row - n) } }
        ((g.scroll_top - (g.pos.row - n)) + (if g.pos.row < n then n - g.pos.row else 0)) := by
  simp [Grid.row_dec_scroll, row_clamp_top_true]

theorem ginv_set_scroll_region {g : Grid} (h : GInv g) (top bottom : Nat) :
    GInv (g.set_scroll_region top bottom) := by
  obtain ⟨⟨h1, h2, h3, h4, h5, h6⟩, h7, h8⟩ := h
  unfold Grid.set_scroll_region
  by_cases hlt : top < min bottom (g.size.rows - 1)
  · simp only [if_pos hlt]
    refine ⟨⟨h1, h2, ?_, ?_, ?_, ?_⟩, h7, h8⟩ <;> simp only <;> omega
  · simp only [if_neg hlt]
    refine ⟨⟨h1, h2, ?_, ?_, ?_, ?_⟩, h7, h8⟩ <;> simp only <;> omega

theorem ginv_set_origin_mode {g : Grid} (h : GInv g) (m : Bool) :
    GInv (g.set_origin_mode m) := by
  have h2 : GInv { g with origin_mode := m } := by
    obtain ⟨⟨h1, h2, h3, h4, h5, h6⟩, h7, h8⟩ := h
    exact ⟨⟨h1, h2, h3, h4, h5, h6⟩, h7, h8⟩
  exact ginv_set_pos h2 ⟨0, 0⟩

theorem ginv_row_inc_clamp {g : Grid} (h : GInv g) (n : Nat) : GInv (g.row_inc_clamp n) := by
  rw [row_inc_clamp_eq]
  have h4 := h.1.2.2.2.1
  have h6 := h.1.2.2.2.2.2
  exact ginv_pos_update (g := g)
    (p := ⟨min g.scroll_bottom (satAdd g.pos.row n), g.pos.col⟩) h
    (by dsimp only; omega) h4

theorem ginv_row_dec_clamp {g : Grid} (h : GInv g) (n : Nat) : GInv (g.row_dec_clamp n) := by
  rw [row_dec_clamp_eq]
  have h3 := h.1.2.2.1
  have h4 := h.1.2.2.2.1
  have h5 := h.1.2.2.2.2.1
  have h6 := h.1.2.2.2.2.2
  exact ginv_pos_update (g := g)
    (p := ⟨max g.scroll_top (g.pos.row - n), g.pos.col⟩) h
    (by dsimp only; omega) h4

theorem ginv_row_set {g : Grid} (h : GInv g) (i : Nat) : GInv (g.row_set i) := by
  rw [row_set_eq]
  have h4 := h.1.2.2.2.1
  have h6 := h.1.2.2.2.2.2
  exact ginv_pos_update (g := g)
    (p := ⟨min g.scroll_bottom (max g.scroll_top i), g.pos.col⟩) h
    (by dsimp only; omega) h4

theorem ginv_col_inc_clamp {g : Grid} (h : GInv g) (n : Nat) : GInv (g.col_inc_clamp n) := by
  unfold Grid.col_inc_clamp
  rw [col_clamp_eq]
  have h3 := h.1.2.2.1
  have h4 := h.1.2.2.2.1
  exact ginv_pos_update (g := g)
    (p := ⟨g.pos.row, min (g.size.cols - 1) (satAdd g.pos.col n)⟩) h h3
    (by dsimp only; omega)

theorem ginv_col_dec {g : Grid} (h : GInv g) (n : Nat) : GInv (g.col_dec n) := by
  unfold Grid.col_dec
  have h3 := h.1.2.2.1
  have h4 := h.1.2.2.2.1
  exact ginv_pos_update (g := g) (p := ⟨g.pos.row, g.pos.col - n⟩) h h3
    (by dsimp only; omega)

theorem ginv_col_set {g : Grid} (h : GInv g) (i : Nat) : GInv (g.col_set i) := by
  unfold Grid.col_set
  rw [col_clamp_eq]
  have h3 := h.1.2.2.1
  have h4 := h.1.2.2.2.1
  exact ginv_pos_update (g := g) (p := ⟨g.pos.row, min (g.size.cols - 1) i⟩) h h3
    (by dsimp only; omega)

theorem ginv_col_tab {g : Grid} (h : GInv g) :
    ∀ g2, g.col_tab = some g2 → GInv g2 := by
  intro g2 ht
  simp only [Grid.col_tab] at ht
  split at ht
  · cases ht
    rw [col_clamp_eq]
    have h3 := h.1.2.2.1
    have h4 := h.1.2.2.2.1
    exact ginv_pos_update (g := g)
      (p := ⟨g.pos.row, min (g.size.cols - 1) (g.pos.col - g.pos.col % 8 + 8)⟩) h h3
      (by dsimp only; omega)
  · cases ht

theorem ginv_row_inc_scroll {g : Grid} (h : GInv g) :
    ∀ g2 n, g.row_inc_scroll n = some g2 → GInv g2 := by
  intro g2 n hs
  rw [row_inc_scroll_eq] at hs
  have h4 := h.1.2.2.2.1
  have h6 := h.1.2.2.2.2.2
  have hpre : GInv { g with pos :=
      { g.pos with row := min g.scroll_bottom (satAdd g.pos.row n) } } :=
    ginv_pos_update (g := g)
      (p := ⟨min g.scroll_bottom (satAdd g.pos.row n), g.pos.col⟩) h
      (by dsimp only; omega) h4
  exact ginv_scroll_up hpre g2 _ hs

theorem ginv_row_dec_scroll {g : Grid} (h : GInv g) :
    ∀ g2 n, g.row_dec_scroll n = some g2 → GInv g2 := by
  intro g2 n hs
  rw [row_dec_scroll_eq] at hs
  have h3 := h.1.2.2.1
  have h4 := h.1.2.2.2.1
  have h5 := h.1.2.2.2.2.1
  have h6 := h.1.2.2.2.2.2
  have hpre : GInv { g with pos :=
      { g.pos with row := max g.scroll_top (g.pos.row - n) } } :=
    ginv_pos_update (g := g)
      (p := ⟨max g.scroll_top (g.pos.row - n), g.pos.col⟩) h
      (by dsimp only; omega) h4
  exact ginv_scroll_down hpre g2 _ hs

theorem ginv_col_wrap {g : Grid} (h : GInv g) :
    ∀ g2 w, g.col_wrap w = some g2 → GInv g2 := by
  intro g2 w hs
  unfold Grid.col_wrap at hs
  split at hs
  · split at hs
    · simp only [bind, Option.bind_eq_some] at hs
      obtain ⟨g1, hg1, hs⟩ := hs
      have hG1 : GInv g1 := by
        refine ginv_modifyCurrentRow h ?_ g1 hg1
        intro r r2 hr hr2
        cases hr2
        exact h.1.2.1 r hr
      have hG1b : GInv { g1 with pos := { g1.pos with col := 0 } } := by
        have h3 := hG1.1.2.2.1
        have h4 := hG1.1.2.2.2.1
        exact ginv_pos_update (g := g1) (p := ⟨g1.pos.row, 0⟩) hG1 h3
          (by dsimp only; omega)
      exact ginv_row_inc_scroll hG1b g2 1 hs
    · cases hs
      exact h
  · cases hs

theorem ginv_applyOp {g : Grid} (h : GInv g) :
    ∀ (op : Op), allowedOp op = true → ∀ g2, g.applyOp op = some g2 → GInv g2 := by
  intro op hop g2 happ
  cases op with
  | clear =>
    simp only [Grid.applyOp, Option.some.injEq] at happ
    exact happ ▸ ginv_clear h
  | set_size s => simp [allowedOp] at hop
  | set_pos p =>
    simp only [Grid.applyOp, Option.some.injEq] at happ
    exact happ ▸ ginv_set_pos h p
  | save_cursor =>
    simp only [Grid.applyOp, Option.some.injEq] at happ
    exact happ ▸ ginv_save_cursor h
  | restore_cursor =>
    simp only [Grid.applyOp, Option.some.injEq] at happ
    exact happ ▸ ginv_restore_cursor h
  | erase_all =>
    simp only [Grid.applyOp, Option.some.injEq] at happ
    exact happ ▸ ginv_erase_all h ()
  | erase_all_forward =>
    simp only [Grid.applyOp] at happ
    exact ginv_erase_all_forward h () g2 happ
  | erase_all_backward =>
    simp only [Grid.applyOp] at happ
    exact ginv_erase_all_backward h () g2 happ
  | erase_row =>
    simp only [Grid.applyOp] at happ
    exact ginv_erase_row h () g2 happ
  | erase_row_forward =>
    simp only [Grid.applyOp] at happ
    exact ginv_erase_row_forward h () g2 happ
  | erase_row_backward =>
    simp only [Grid.applyOp] at happ
    exact ginv_erase_row_backward h () g2 happ
  | insert_cells n =>
    simp only [Grid.applyOp] at happ
    exact ginv_insert_cells h n g2 happ
  | delete_cells n =>
    simp only [Grid.applyOp] at happ
    exact ginv_delete_cells h n g2 happ
  | erase_cells n =>
    simp only [Grid.applyOp] at happ
    exact ginv_erase_cells h n () g2 happ
  | insert_lines n =>
    simp only [Grid.applyOp] at happ
    exact ginv_insert_lines h g2 n happ
  | delete_lines n =>
    simp only [Grid.applyOp] at happ
    exact ginv_delete_lines h g2 n happ
  | scroll_up n =>
    simp only [Grid.applyOp] at happ
    exact ginv_scroll_up h g2 n happ
  | scroll_down n =>
    simp only [Grid.applyOp] at happ
    exact ginv_scroll_down h g2 n happ
  | set_scroll_region t b =>
    simp only [Grid.applyOp, Option.some.injEq] at happ
    exact happ ▸ ginv_set_scroll_region h t b
  | set_origin_mode m =>
    simp only [Grid.applyOp, Option.some.injEq] at happ
    exact happ ▸ ginv_set_origin_mode h m
  | row_inc_clamp n =>
    simp only [Grid.applyOp, Option.some.injEq] at happ
    exact happ ▸ ginv_row_inc_clamp h n
  | row_inc_scroll n =>
    simp only [Grid.applyOp] at happ
    exact ginv_row_inc_scroll h g2 n happ
  | row_dec_clamp n =>
    simp only [Grid.applyOp, Option.some.injEq] at happ
    exact happ ▸ ginv_row_dec_clamp h n
  | row_dec_scroll n =>
    simp only [Grid.applyOp] at happ
    exact ginv_row_dec_scroll h g2 n happ
  | row_set n =>
    simp only [Grid.applyOp, Option.some.injEq] at happ
    exact happ ▸ ginv_row_set h n
  | col_inc n => simp [allowedOp] at hop
  | col_inc_clamp n =>
    simp only [Grid.applyOp, Option.some.injEq] at happ
    exact happ ▸ ginv_col_inc_clamp h n
  | col_dec n =>
    simp only [Grid.applyOp, Option.some.injEq] at happ
    exact happ ▸ ginv_col_dec h n
  | col_tab =>
    simp only [Grid.applyOp] at happ
    exact ginv_col_tab h g2 happ
  | col_set n =>
    simp only [Grid.applyOp, Option.some.injEq] at happ
    exact happ ▸ ginv_col_set h n
  | col_wrap n =>
    simp only [Grid.applyOp] at happ
    exact ginv_col_wrap h g2 n happ

theorem ginv_applySeq :
    ∀ (ops : List Op) (g g2 : Grid), GInv g → (∀ op ∈ ops, allowedOp op = true) →
      Grid.applySeq ops g = some g2 → GInv g2 := by
  intro ops
  induction ops with
  | nil =>
    intro g g2 h _ happ
    cases happ
    exact h
  | cons op rest ih =>
    intro g g2 h hops happ
    rw [Grid.applySeq, Option.bind_eq_some] at happ
    obtain ⟨g1, h1, h2⟩ := happ
    exact ih g1 g2 (ginv_applyOp h op (hops op (List.mem_cons_self op rest)) g1 h1)
      (fun o ho => hops o (List.mem_cons_of_mem op ho)) h2

/-- C1 (amended): starting from `new(size)` with positive dimensions,
every finite sequence of public Grid operations that avoids `col_inc`
and `set_size` maintains, after each operation, all five claimed
invariants: `rows.len() = size.rows`, every row width `= size.cols`,
`pos.row < size.rows`, `pos.col < size.cols`, and
`scroll_top ≤ scroll_bottom < size.rows`.  (Quantifying over all
sequences covers every prefix, hence "after each operation"; an
operation that panics yields no state at all.) -/
theorem C1_invariants_amended (size : Size) (ops : List Op) (g2 : Grid)
    (hr : 1 ≤ size.rows) (hc : 1 ≤ size.cols)
    (hops : ∀ op ∈ ops, allowedOp op = true)
    (happ : Grid.applySeq ops (Grid.new size) = some g2) :
    claimInvariants g2 :=
  (ginv_applySeq ops (Grid.new size) g2 (ginv_new size hr hc) hops happ).1

/-- Witness for C1 (amended) on a concrete size and operation list. -/
theorem C1_witness :
    Grid.applySeq [Op.clear, Op.row_inc_scroll 5] (Grid.new ⟨2, 2⟩) =
      some { Grid.new ⟨2, 2⟩ with pos := ⟨1, 0⟩ } ∧
    claimInvariants { Grid.new ⟨2, 2⟩ with pos := ⟨1, 0⟩ } :=
  ⟨by decide,
    C1_invariants_amended ⟨2, 2⟩ [Op.clear, Op.row_inc_scroll 5]
      { Grid.new ⟨2, 2⟩ with pos := ⟨1, 0⟩ }
      (by decide) (by decide) (by decide) (by decide)⟩
